import Mathlib

set_option linter.unusedVariables false

/-!
Shallow embedding of the work-loop core of the react-reconciler package
(src/packages/react-reconciler/src/workLoop.ts).  The modules that
workLoop.ts imports but whose source is not part of the repository
snapshot (fiberLanes, fiberFlags, workTags, fiber.createWorkInProgress,
syncTaskQueue, hostConfig.scheduleMicroTask) are modelled from the
specification; each such definition carries a doc comment saying so.

Fibers live in a heap addressed by natural-number ids; the engine state
bundles the heap, the single fiber root, the module-level `workInProgress`
cursor, the sync task queue, a count of scheduled microtask flushes, a
fresh-id allocator and a ghost trace of handler/commit invocations used
to observe which external calls occurred and in which order.
-/

/-- One fiber node: the node kind `tag`, props (opaque payloads, modelled as
naturals), effect flag bitsets, the tree links `child`/`sibling`/`ret`
(the source's `return` pointer), the dual-buffer `alternate` link, and
`stateNode`, which for the host-root fiber records whether the fiber-root
object is attached (the source stores the FiberRootNode there; with a single
root a boolean suffices). -/
structure FiberNode where
  tag : Nat
  pendingProps : Nat
  memoizedProps : Nat
  flags : Nat
  subtreeFlags : Nat
  child : Option Nat
  sibling : Option Nat
  ret : Option Nat
  alternate : Option Nat
  stateNode : Bool
deriving DecidableEq

/-- Heap of fiber nodes addressed by ids. -/
abbrev Heap := Nat → FiberNode

/-- The fiber root object: `current` committed tree root id, `finishedWork`
handoff slot, and the coarsened pending lane set. -/
structure FiberRootNode where
  current : Nat
  finishedWork : Option Nat
  pendingLanes : Nat
deriving DecidableEq

/-- Ghost trace events: invocation of the begin-phase handler, of the
complete-phase handler, a commit (commitRoot passing its null check), and an
invocation of the mutation-effects applier. -/
inductive Ev where
  | begin (i : Nat)
  | complete (i : Nat)
  | commit (i : Nat)
  | mutate (i : Nat)
deriving DecidableEq

/-- Whole-engine state: fiber heap, the one fiber root, the module-level
`workInProgress` cursor, the sync callback queue (each queued callback is
`performSyncWorkOnRoot.bind(null, root, lane)`; with one root it is recorded
by its lane), the number of `scheduleMicroTask` requests issued, the next
fresh fiber id, and the ghost event trace. -/
structure EngineState where
  heap : Heap
  root : FiberRootNode
  wip : Option Nat
  syncQueue : List Nat
  microtasks : Nat
  nextId : Nat
  trace : List Ev

/-- Modelled from the spec: fiberLanes.NoLane, the distinguished empty
sentinel of the lane bitset. -/
def NoLane : Nat := 0

/-- Modelled from the spec: fiberLanes.SyncLane, the synchronous priority
lane; as the lowest nonzero bit it outranks every other lane. -/
def SyncLane : Nat := 1

/-- Modelled from the spec: fiberLanes.mergeLanes is bitset union. -/
def mergeLanes (a b : Nat) : Nat := a ||| b

/-- Lowest set bit of `n`, computed with structural fuel so that it reduces
in the kernel; `lowestSetBit n n` is exact for every `n`. -/
def lowestSetBit : Nat → Nat → Nat
  | 0, _ => 0
  | fuel+1, n => if n = 0 then 0 else if n % 2 = 1 then 1 else 2 * lowestSetBit fuel (n / 2)

/-- Modelled from the spec: fiberLanes.getHighestPriorityLane selects the
numerically smallest nonzero bit (lower magnitude = higher priority), with
the empty set mapping to the NoLane sentinel. -/
def getHighestPriorityLane (lanes : Nat) : Nat := lowestSetBit lanes lanes

/-- Modelled from the spec: fiberFlags.NoFlags. -/
def NoFlags : Nat := 0

/-- Modelled from the spec: fiberFlags.MutationMask, the union of the
mutation-relevant effect bits (placement, update, child deletion). -/
def MutationMask : Nat := 7

/-- Modelled from the spec: workTags.HostRoot, the tag of the root-holder
fiber. -/
def HostRoot : Nat := 3

/-- Update the heap at one id. -/
def setNode (h : Heap) (j : Nat) (v : FiberNode) : Heap :=
  fun k => if k = j then v else h k

/-- The source line `fiber.memoizedProps = fiber.pendingProps` executed right
after the begin-phase handler returns, reading the node from the heap the
handler produced. -/
def memoCommitHeap (h : Heap) (i : Nat) : Heap :=
  setNode h i { h i with memoizedProps := (h i).pendingProps }

/-- The three external collaborators of the engine.  The begin-phase handler
may rewrite the heap and returns the next child to descend into (or none),
or throws; the complete-phase handler may rewrite the heap or throw; the
mutation-effects applier rewrites the heap. -/
structure ExtHandlers where
  beginWork : Heap → Nat → Except Unit (Heap × Option Nat)
  completeWork : Heap → Nat → Except Unit Heap
  commitMutationEffects : Heap → Nat → Heap

/-- Outcome of one unit of work: continue the loop in a new state, a handler
threw (state at the throw), or the embedding's fuel ran out (the source would
still be looping). -/
inductive URes where
  | next (s : EngineState)
  | thrown (s : EngineState)
  | fuelOut

/-- Outcome of running the work loop: loop exhausted with cursor none, a
handler threw, or fuel ran out. -/
inductive WRes where
  | ok (s : EngineState)
  | thrown (s : EngineState)
  | fuelOut

/-- completeUnitOfWork from the source: repeatedly run the complete-phase
handler on a node, move the cursor to the sibling when one exists, otherwise
retreat to the parent via `ret` and complete it too; when the retreat moves
past the root the cursor is set to none. -/
def completeUnitOfWork (H : ExtHandlers) : Nat → EngineState → Nat → URes
  | 0, _, _ => URes.fuelOut
  | fuel+1, s, node =>
    let s₀ : EngineState := { s with trace := s.trace ++ [Ev.complete node] }
    match H.completeWork s.heap node with
    | Except.error _ => URes.thrown s₀
    | Except.ok h₁ =>
      let s₁ : EngineState := { s₀ with heap := h₁ }
      match (h₁ node).sibling with
      | some sib => URes.next { s₁ with wip := some sib }
      | none =>
        match (h₁ node).ret with
        | some parent => completeUnitOfWork H fuel { s₁ with wip := some parent } parent
        | none => URes.next { s₁ with wip := none }

/-- performUnitOfWork from the source: call the begin-phase handler, then
unconditionally set the node's memoizedProps from its pendingProps, then
either descend into the returned child or run completeUnitOfWork. -/
def performUnitOfWork (H : ExtHandlers) (fuel : Nat) (s : EngineState) (i : Nat) : URes :=
  let s₀ : EngineState := { s with trace := s.trace ++ [Ev.begin i] }
  match H.beginWork s.heap i with
  | Except.error _ => URes.thrown s₀
  | Except.ok (h₁, next) =>
    let s₁ : EngineState := { s₀ with heap := memoCommitHeap h₁ i }
    match next with
    | none => completeUnitOfWork H fuel s₁ i
    | some c => URes.next { s₁ with wip := some c }

/-- workLoop from the source: `while (workInProgress !== null)
performUnitOfWork(workInProgress)`. -/
def workLoop (H : ExtHandlers) : Nat → EngineState → WRes
  | 0, _ => WRes.fuelOut
  | fuel+1, s =>
    match s.wip with
    | none => WRes.ok s
    | some i =>
      match performUnitOfWork H fuel s i with
      | URes.next s₁ => workLoop H fuel s₁
      | URes.thrown s₁ => WRes.thrown s₁
      | URes.fuelOut => WRes.fuelOut

/-- The `do { try { workLoop(); break; } catch { workInProgress = null; } }
while (true)` retry shell of performSyncWorkOnRoot: on a throw the cursor is
reset to none and the loop runs again (the next workLoop then exits at
once).  `none` means the embedding ran out of fuel. -/
def renderShell (H : ExtHandlers) : Nat → EngineState → Option EngineState
  | 0, _ => none
  | fuel+1, s =>
    match workLoop H fuel s with
    | WRes.ok s₁ => some s₁
    | WRes.thrown s₁ => renderShell H fuel { s₁ with wip := none }
    | WRes.fuelOut => none

/-- Modelled from the spec: fiber.createWorkInProgress.  Returns the paired
work-in-progress node for `cur`: if the pair already exists its mutable
fields are reset (flags cleared, pending props set) while identity and
child/sibling/return links are preserved; on the pair's first use a fresh
node is allocated, copying the links, and the two alternates are linked to
each other.  Result: updated heap, wip id, next fresh id. -/
def createWorkInProgress (h : Heap) (nid : Nat) (cur : Nat) (props : Nat) :
    Heap × Nat × Nat :=
  match (h cur).alternate with
  | some w =>
    (setNode h w { h w with pendingProps := props, flags := NoFlags, subtreeFlags := NoFlags },
     w, nid)
  | none =>
    let c := h cur
    let wNode : FiberNode :=
      { tag := c.tag, pendingProps := props, memoizedProps := c.memoizedProps,
        flags := NoFlags, subtreeFlags := NoFlags, child := c.child,
        sibling := c.sibling, ret := c.ret, alternate := some cur,
        stateNode := c.stateNode }
    let h₁ := setNode h nid wNode
    let h₂ := setNode h₁ cur { c with alternate := some nid }
    (h₂, nid, nid + 1)

/-- prepareFreshStack from the source: point the cursor at the working copy
of the root fiber, `createWorkInProgress(root.current, {})`. -/
def prepareFreshStack (s : EngineState) : EngineState :=
  let r := createWorkInProgress s.heap s.nextId s.root.current 0
  { s with heap := r.1, wip := some r.2.1, nextId := r.2.2 }

/-- commitRoot from the source: no-op when `finishedWork` is none; otherwise
clear `finishedWork`, test the finished root's flags and subtreeFlags
against MutationMask, invoke the mutation-effects applier when either
intersects, and in every case swap `root.current` to the finished tree.
A ghost `Ev.commit` event records that the null check was passed and an
`Ev.mutate` event records an applier invocation. -/
def commitRoot (H : ExtHandlers) (s : EngineState) : EngineState :=
  match s.root.finishedWork with
  | none => s
  | some fw =>
    let s₁ : EngineState :=
      { s with root := { s.root with finishedWork := none },
               trace := s.trace ++ [Ev.commit fw] }
    if (s.heap fw).subtreeFlags &&& MutationMask ≠ NoFlags ∨
       (s.heap fw).flags &&& MutationMask ≠ NoFlags then
      { s₁ with heap := H.commitMutationEffects s₁.heap fw,
                root := { s₁.root with current := fw },
                trace := s₁.trace ++ [Ev.mutate fw] }
    else
      { s₁ with root := { s₁.root with current := fw } }

/-- ensureRootIsScheduled from the source: read the highest-priority pending
lane; NoLane means nothing pending (no-op); SyncLane enqueues a bound
performSyncWorkOnRoot callback (scheduleSyncCallback, modelled from the spec
as FIFO append) and requests a microtask flush (scheduleMicroTask, modelled
as a counter); other lanes fall through to the not-yet-implemented macrotask
branch, which does nothing in this revision. -/
def ensureRootIsScheduled (s : EngineState) : EngineState :=
  let updateLane := getHighestPriorityLane s.root.pendingLanes
  if updateLane = NoLane then s
  else if updateLane = SyncLane then
    { s with syncQueue := s.syncQueue ++ [updateLane], microtasks := s.microtasks + 1 }
  else s

/-- performSyncWorkOnRoot from the source: re-check the highest pending
lane; if it is not SyncLane, re-invoke ensureRootIsScheduled and return.
Otherwise prepareFreshStack, run the retry shell, then unconditionally set
`root.finishedWork` to `root.current.alternate` and call commitRoot.  The
`lane` parameter is unused by the source body exactly as here.  `none`
means the embedding ran out of fuel. -/
def performSyncWorkOnRoot (H : ExtHandlers) (fuel : Nat) (s : EngineState) (lane : Nat) :
    Option EngineState :=
  if getHighestPriorityLane s.root.pendingLanes ≠ SyncLane then
    some (ensureRootIsScheduled s)
  else
    match renderShell H fuel (prepareFreshStack s) with
    | none => none
    | some s₂ =>
      let fw := (s₂.heap s₂.root.current).alternate
      some (commitRoot H { s₂ with root := { s₂.root with finishedWork := fw } })

/-- markRootUpdated from the source: merge the lane into root.pendingLanes.
The source dereferences `root` unconditionally, so a null root (the walk in
markUpdateFromFiberToRoot not ending at a root holder) raises a TypeError,
modelled as the error case. -/
def markRootUpdated (root : Option FiberRootNode) (lane : Nat) :
    Except Unit FiberRootNode :=
  match root with
  | none => Except.error ()
  | some r => Except.ok { r with pendingLanes := mergeLanes r.pendingLanes lane }

/-- The `while (parent !== null) { node = parent; parent = node.return; }`
climb of markUpdateFromFiberToRoot, fuel-bounded; returns the topmost node. -/
def climbToRoot (h : Heap) : Nat → Nat → Option Nat
  | 0, _ => none
  | fuel+1, n =>
    match (h n).ret with
    | none => some n
    | some p => climbToRoot h fuel p

/-- markUpdateFromFiberToRoot from the source: climb via `ret` links; if the
topmost node is tagged HostRoot, its stateNode (the fiber root, or null) is
returned, otherwise null.  `some true` means the fiber root was found,
`some false` that null was returned, `none` that the climb ran out of
fuel. -/
def markUpdateFromFiberToRoot (h : Heap) (fuel : Nat) (fiber : Nat) : Option Bool :=
  match climbToRoot h fuel fiber with
  | none => none
  | some n => some (if (h n).tag = HostRoot then (h n).stateNode else false)

/-- scheduleUpdateOnFiber from the source: find the fiber root by climbing,
merge the lane onto it (markRootUpdated), then ensureRootIsScheduled.  When
the climb does not yield the root, markRootUpdated dereferences null: the
exception escapes the call, carried as `Except.error` together with the
engine state at the throw (which the call has not modified). -/
def scheduleUpdateOnFiber (fuel : Nat) (s : EngineState) (fiber : Nat) (lane : Nat) :
    Option (Except EngineState EngineState) :=
  match markUpdateFromFiberToRoot s.heap fuel fiber with
  | none => none
  | some found =>
    match markRootUpdated (if found then some s.root else none) lane with
    | Except.error _ => some (Except.error s)
    | Except.ok root₁ => some (Except.ok (ensureRootIsScheduled { s with root := root₁ }))

/-- Modelled from the spec: syncTaskQueue.flushSyncCallbacks drains the
queued callbacks in FIFO order, clearing each entry as it runs, and is a
no-op on an empty queue.  Each callback is a bound performSyncWorkOnRoot. -/
def flushSyncCallbacks (H : ExtHandlers) : Nat → EngineState → Option EngineState
  | 0, _ => none
  | fuel+1, s =>
    match s.syncQueue with
    | [] => some s
    | lane :: rest =>
      match performSyncWorkOnRoot H fuel { s with syncQueue := rest } lane with
      | none => none
      | some s₁ => flushSyncCallbacks H fuel s₁

/-- Default fiber used to make heaps total. -/
def defaultFiber : FiberNode :=
  { tag := 0, pendingProps := 0, memoizedProps := 0, flags := 0, subtreeFlags := 0,
    child := none, sibling := none, ret := none, alternate := none, stateNode := false }

/-- Build an engine state with empty queue, no microtasks and empty trace. -/
def mkState (h : Heap) (cur : Nat) (lanes : Nat) (w : Option Nat) (nid : Nat) :
    EngineState :=
  { heap := h, root := { current := cur, finishedWork := none, pendingLanes := lanes },
    wip := w, syncQueue := [], microtasks := 0, nextId := nid, trace := [] }

/-- Purely structural external handlers: begin descends into the stored
child, complete and the applier leave the heap alone. -/
def structuralHandlers : ExtHandlers :=
  { beginWork := fun h i => Except.ok (h, (h i).child),
    completeWork := fun h _ => Except.ok h,
    commitMutationEffects := fun h _ => h }

/-- The traversal-order test tree: R(id 0) with children A(id 1), B(id 2) in
that order, A having the single leaf child A1(id 3), B a leaf. -/
def traversalHeap : Heap := fun k =>
  if k = 0 then { defaultFiber with child := some 1 }
  else if k = 1 then { defaultFiber with child := some 3, sibling := some 2, ret := some 0 }
  else if k = 2 then { defaultFiber with ret := some 0 }
  else if k = 3 then { defaultFiber with ret := some 1 }
  else defaultFiber

/-- View of a work-loop outcome for decidable checking: trace and cursor of
a normally exhausted run. -/
def wresView : WRes → Option (List Ev × Option Nat)
  | WRes.ok s => some (s.trace, s.wip)
  | _ => none

/-- View of an engine state for decidable checking: current root id,
finishedWork, cursor and trace. -/
def stateView (s : EngineState) : Nat × Option Nat × Option Nat × List Ev :=
  (s.root.current, s.root.finishedWork, s.wip, s.trace)

/-- A three-node chain rooted at a host-root fiber: 0 → 1 → 2; the wip copy
of node 0 becomes the first node visited, so node 2 is the third. -/
def chainHeap : Heap := fun k =>
  if k = 0 then { defaultFiber with tag := HostRoot, stateNode := true, child := some 1 }
  else if k = 1 then { defaultFiber with child := some 2, ret := some 0 }
  else if k = 2 then { defaultFiber with ret := some 1 }
  else defaultFiber

/-- Handlers whose begin phase throws exactly at node 2 (the third node the
walk visits in `chainHeap`) and otherwise descends structurally. -/
def throwAtNode2Handlers : ExtHandlers :=
  { beginWork := fun h i => if i = 2 then Except.error () else Except.ok (h, (h i).child),
    completeWork := fun h _ => Except.ok h,
    commitMutationEffects := fun h _ => h }

/-- A detached fiber at id 5: its upward walk ends at itself, which is not
tagged HostRoot. -/
def detachedHeap : Heap := fun k =>
  if k = 5 then defaultFiber else defaultFiber

/-- A single host-root fiber with no children, used for the scheduling
scenarios. -/
def singleRootHeap : Heap := fun k =>
  if k = 0 then { defaultFiber with tag := HostRoot, stateNode := true } else defaultFiber

/-- Start state of the two-sync-updates scenario. -/
def twoUpdatesStart : EngineState := mkState singleRootHeap 0 0 none 1

/-- State after two scheduleUpdateOnFiber(root, SyncLane) calls issued in the
same turn, before the microtask boundary fires. -/
def twoUpdatesQueued : Option EngineState :=
  match scheduleUpdateOnFiber 10 twoUpdatesStart 0 SyncLane with
  | some (Except.ok s₁) =>
    match scheduleUpdateOnFiber 10 s₁ 0 SyncLane with
    | some (Except.ok s₂) => some s₂
    | _ => none
  | _ => none

/-- State after the microtask boundary flushes the queue of the
two-sync-updates scenario. -/
def twoUpdatesFlushed : Option EngineState :=
  twoUpdatesQueued.bind (flushSyncCallbacks structuralHandlers 40)

/-- Number of commit events in a trace. -/
def countCommits : List Ev → Nat
  | [] => 0
  | Ev.commit _ :: rest => countCommits rest + 1
  | _ :: rest => countCommits rest

/-- Commit scenario: a root whose finishedWork slot is set to fiber 1. -/
def commitScenState : EngineState :=
  { mkState singleRootHeap 0 NoLane none 2 with
    root := { current := 0, finishedWork := some 1, pendingLanes := NoLane } }

/-- Frame lemma: ensureRootIsScheduled only touches the sync queue and the
microtask count; cursor, heap, trace and the root object are unchanged. -/
theorem ensureRootIsScheduled_frame (s : EngineState) :
    (ensureRootIsScheduled s).wip = s.wip ∧ (ensureRootIsScheduled s).heap = s.heap ∧
    (ensureRootIsScheduled s).trace = s.trace ∧ (ensureRootIsScheduled s).root = s.root := by
  by_cases h1 : getHighestPriorityLane s.root.pendingLanes = NoLane
  · simp [ensureRootIsScheduled, h1]
  · by_cases h2 : getHighestPriorityLane s.root.pendingLanes = SyncLane
    · simp [ensureRootIsScheduled, h1, h2, SyncLane, NoLane]
    · simp [ensureRootIsScheduled, h1, h2]

/-- The work loop only exits normally once the cursor is none. -/
theorem workLoop_ok_wip_none (H : ExtHandlers) :
    ∀ fuel s t, workLoop H fuel s = WRes.ok t → t.wip = none := by
  intro fuel
  induction fuel with
  | zero =>
    intro s t h
    rw [workLoop] at h
    cases h
  | succ n ih =>
    intro s t h
    rw [workLoop] at h
    cases hw : s.wip with
    | none =>
      rw [hw] at h
      injection h with h2
      subst h2
      exact hw
    | some i =>
      rw [hw] at h
      dsimp only at h
      cases hu : performUnitOfWork H n s i with
      | next s₁ => rw [hu] at h; exact ih s₁ t h
      | thrown s₁ => rw [hu] at h; cases h
      | fuelOut => rw [hu] at h; cases h

/-- The retry shell, whenever it returns, returns with the cursor none:
either the loop exited by exhaustion, or the catch branch had reset the
cursor and the retried loop exited at once. -/
theorem renderShell_some_wip_none (H : ExtHandlers) :
    ∀ fuel s t, renderShell H fuel s = some t → t.wip = none := by
  intro fuel
  induction fuel with
  | zero =>
    intro s t h
    rw [renderShell] at h
    cases h
  | succ n ih =>
    intro s t h
    rw [renderShell] at h
    cases hw : workLoop H n s with
    | ok s₁ =>
      rw [hw] at h
      injection h with h2
      subst h2
      exact workLoop_ok_wip_none H n s s₁ hw
    | thrown s₁ => rw [hw] at h; exact ih _ t h
    | fuelOut => rw [hw] at h; cases h

/-- commitRoot never touches the work-in-progress cursor. -/
theorem commitRoot_wip (H : ExtHandlers) (s : EngineState) :
    (commitRoot H s).wip = s.wip := by
  cases hf : s.root.finishedWork with
  | none => simp [commitRoot, hf]
  | some fw =>
    by_cases hc : (s.heap fw).subtreeFlags &&& MutationMask ≠ NoFlags ∨
        (s.heap fw).flags &&& MutationMask ≠ NoFlags
    · simp [commitRoot, hf, hc]
    · simp [commitRoot, hf, hc]

/-- C4: for the tree with root R (id 0) having children A (id 1) and B
(id 2) in that order, A having the single leaf child A1 (id 3), one full run
of the work loop invokes the external handlers in exactly the order
begin R, begin A, begin A1, complete A1, complete A, begin B, complete B,
complete R, after which the cursor is none. -/
theorem workLoop_traversal_order :
    wresView (workLoop structuralHandlers 20 (mkState traversalHeap 0 0 (some 0) 4)) =
      some ([Ev.begin 0, Ev.begin 1, Ev.begin 3, Ev.complete 3, Ev.complete 1,
             Ev.begin 2, Ev.complete 2, Ev.complete 0], none) := by decide

/-- C1: evaluation at the failing input.  In the chain 0 → 1 → 2 the begin
handler throws on the third node visited (id 2); performSyncWorkOnRoot
nevertheless sets root.finishedWork to the half-built working copy (id 3)
and commitRoot runs: the trace records a commit event and root.current is
swapped from 0 to the partial tree 3, contradicting the stated guarantee
that an abandoned walk leaves the persistent tree untouched and commits
nothing. -/
theorem performSyncWorkOnRoot_throw_commits_partial :
    (performSyncWorkOnRoot throwAtNode2Handlers 30
        (mkState chainHeap 0 SyncLane none 3) SyncLane).map stateView =
      some (3, none, none, [Ev.begin 3, Ev.begin 1, Ev.begin 2, Ev.commit 3]) := by decide

/-- C2 counterexample: for the detached fiber 5, whose upward walk ends at a
node not tagged HostRoot, scheduleUpdateOnFiber does not return normally: the
null returned by markUpdateFromFiberToRoot is dereferenced by markRootUpdated
and the exception escapes the call, contrary to the claim that no exception
crosses this boundary. -/
theorem scheduleUpdateOnFiber_detached_throws :
    markUpdateFromFiberToRoot detachedHeap 10 5 = some false ∧
    scheduleUpdateOnFiber 10 (mkState detachedHeap 0 0 none 6) 5 SyncLane =
      some (Except.error (mkState detachedHeap 0 0 none 6)) :=
  ⟨by decide, rfl⟩

/-- C2 amended: whenever the upward walk terminates at a node that is not a
root holder, scheduleUpdateOnFiber merges no lane and schedules nothing, but
the null dereference in markRootUpdated escapes the call as an exception,
with the engine state unmodified at the throw. -/
theorem scheduleUpdateOnFiber_misrouted_escapes (fuel : Nat) (s : EngineState)
    (fiber lane : Nat)
    (h : markUpdateFromFiberToRoot s.heap fuel fiber = some false) :
    scheduleUpdateOnFiber fuel s fiber lane = some (Except.error s) := by
  unfold scheduleUpdateOnFiber
  rw [h]
  rfl

/-- C2 amended, witnessed at the detached fiber 5. -/
theorem scheduleUpdateOnFiber_misrouted_escapes_witness :
    scheduleUpdateOnFiber 10 (mkState detachedHeap 1 0 none 6) 5 SyncLane =
      some (Except.error (mkState detachedHeap 1 0 none 6)) :=
  scheduleUpdateOnFiber_misrouted_escapes 10 (mkState detachedHeap 1 0 none 6) 5 SyncLane
    (by decide)

/-- C8: when the pending lane set is empty the highest-priority selection
yields NoLane and ensureRootIsScheduled changes nothing at all: no callback
is enqueued, no microtask flush is requested, no state changes. -/
theorem ensureRootIsScheduled_noop_empty (s : EngineState)
    (h : s.root.pendingLanes = NoLane) : ensureRootIsScheduled s = s := by
  unfold ensureRootIsScheduled
  rw [h]
  rfl

/-- C8 witnessed on a concrete idle root. -/
theorem ensureRootIsScheduled_noop_empty_witness :
    ensureRootIsScheduled (mkState singleRootHeap 0 NoLane none 1) =
      mkState singleRootHeap 0 NoLane none 1 :=
  ensureRootIsScheduled_noop_empty (mkState singleRootHeap 0 NoLane none 1) rfl

/-- C3: a performSyncWorkOnRoot invocation whose scheduled lane (always
SyncLane: ensureRootIsScheduled only ever enqueues the callback bound at
SyncLane) is no longer the highest-priority pending lane runs no walk and no
commit — cursor, heap, trace and the whole root object are untouched — and
instead the result is exactly a re-invocation of ensureRootIsScheduled. -/
theorem performSyncWorkOnRoot_stale_lane (H : ExtHandlers) (fuel : Nat)
    (s : EngineState) (lane : Nat) (hlane : lane = SyncLane)
    (hstale : getHighestPriorityLane s.root.pendingLanes ≠ lane) :
    performSyncWorkOnRoot H fuel s lane = some (ensureRootIsScheduled s) ∧
    (ensureRootIsScheduled s).wip = s.wip ∧
    (ensureRootIsScheduled s).heap = s.heap ∧
    (ensureRootIsScheduled s).trace = s.trace ∧
    (ensureRootIsScheduled s).root = s.root := by
  subst hlane
  refine ⟨?_, (ensureRootIsScheduled_frame s).1, (ensureRootIsScheduled_frame s).2.1,
    (ensureRootIsScheduled_frame s).2.2.1, (ensureRootIsScheduled_frame s).2.2.2⟩
  unfold performSyncWorkOnRoot
  rw [if_pos hstale]

/-- C3 witnessed on a root with no pending lanes. -/
theorem performSyncWorkOnRoot_stale_lane_witness :
    performSyncWorkOnRoot structuralHandlers 5 (mkState singleRootHeap 0 NoLane none 1)
        SyncLane =
      some (ensureRootIsScheduled (mkState singleRootHeap 0 NoLane none 1)) ∧
    (ensureRootIsScheduled (mkState singleRootHeap 0 NoLane none 1)).wip =
      (mkState singleRootHeap 0 NoLane none 1).wip ∧
    (ensureRootIsScheduled (mkState singleRootHeap 0 NoLane none 1)).heap =
      (mkState singleRootHeap 0 NoLane none 1).heap ∧
    (ensureRootIsScheduled (mkState singleRootHeap 0 NoLane none 1)).trace =
      (mkState singleRootHeap 0 NoLane none 1).trace ∧
    (ensureRootIsScheduled (mkState singleRootHeap 0 NoLane none 1)).root =
      (mkState singleRootHeap 0 NoLane none 1).root :=
  performSyncWorkOnRoot_stale_lane structuralHandlers 5
    (mkState singleRootHeap 0 NoLane none 1) SyncLane rfl (by decide)

/-- C5: whenever the begin-phase call returns (heap h₁, child next), the
processed node's memoizedProps is set from its pendingProps before the
descend/retreat branch is decided: both branches of performUnitOfWork
proceed from the same memo-committed state. -/
theorem performUnitOfWork_memoizes_before_branch (H : ExtHandlers) (fuel : Nat)
    (s : EngineState) (i : Nat) (h₁ : Heap) (next : Option Nat)
    (hb : H.beginWork s.heap i = Except.ok (h₁, next)) :
    (memoCommitHeap h₁ i i).memoizedProps = (h₁ i).pendingProps ∧
    (next = none → performUnitOfWork H fuel s i =
      completeUnitOfWork H fuel
        { s with trace := s.trace ++ [Ev.begin i], heap := memoCommitHeap h₁ i } i) ∧
    (∀ c, next = some c → performUnitOfWork H fuel s i =
      URes.next { s with
        trace := s.trace ++ [Ev.begin i], heap := memoCommitHeap h₁ i, wip := some c }) := by
  refine ⟨by simp [memoCommitHeap, setNode], ?_, ?_⟩
  · intro hn
    subst hn
    unfold performUnitOfWork
    rw [hb]
  · intro c hn
    subst hn
    unfold performUnitOfWork
    rw [hb]

/-- C5 witnessed: the root of the traversal tree descends into child 1, and
its memoizedProps is committed from pendingProps by the same step. -/
theorem performUnitOfWork_memoizes_before_branch_witness :
    performUnitOfWork structuralHandlers 5 (mkState traversalHeap 0 0 (some 0) 4) 0 =
      URes.next { mkState traversalHeap 0 0 (some 0) 4 with
                  trace := [Ev.begin 0], heap := memoCommitHeap traversalHeap 0,
                  wip := some 1 } :=
  (performUnitOfWork_memoizes_before_branch structuralHandlers 5
    (mkState traversalHeap 0 0 (some 0) 4) 0 traversalHeap (some 1) rfl).2.2 1 rfl

/-- C6: committing a set finishedWork always swaps root.current to the
finished tree; the mutation-effects applier runs exactly when the finished
root's flags or subtreeFlags intersect MutationMask, and is skipped (heap
untouched, no mutate event) when neither does. -/
theorem commitRoot_mutation_and_swap (H : ExtHandlers) (s : EngineState) (fw : Nat)
    (hfw : s.root.finishedWork = some fw) :
    (commitRoot H s).root.current = fw ∧
    (((s.heap fw).subtreeFlags &&& MutationMask ≠ NoFlags ∨
      (s.heap fw).flags &&& MutationMask ≠ NoFlags) →
      (commitRoot H s).heap = H.commitMutationEffects s.heap fw ∧
      (commitRoot H s).trace = s.trace ++ [Ev.commit fw] ++ [Ev.mutate fw]) ∧
    (¬ ((s.heap fw).subtreeFlags &&& MutationMask ≠ NoFlags ∨
       (s.heap fw).flags &&& MutationMask ≠ NoFlags) →
      (commitRoot H s).heap = s.heap ∧
      (commitRoot H s).trace = s.trace ++ [Ev.commit fw]) := by
  by_cases hc : (s.heap fw).subtreeFlags &&& MutationMask ≠ NoFlags ∨
      (s.heap fw).flags &&& MutationMask ≠ NoFlags
  · refine ⟨?_, fun _ => ⟨?_, ?_⟩, fun hn => absurd hc hn⟩ <;> simp [commitRoot, hfw, hc]
  · refine ⟨?_, fun hp => absurd hp hc, fun _ => ⟨?_, ?_⟩⟩ <;> simp [commitRoot, hfw, hc]

/-- C6 witnessed on a finished tree with no mutation-relevant flags. -/
theorem commitRoot_mutation_and_swap_witness :
    (commitRoot structuralHandlers commitScenState).root.current = 1 ∧
    (((commitScenState.heap 1).subtreeFlags &&& MutationMask ≠ NoFlags ∨
      (commitScenState.heap 1).flags &&& MutationMask ≠ NoFlags) →
      (commitRoot structuralHandlers commitScenState).heap =
        structuralHandlers.commitMutationEffects commitScenState.heap 1 ∧
      (commitRoot structuralHandlers commitScenState).trace =
        commitScenState.trace ++ [Ev.commit 1] ++ [Ev.mutate 1]) ∧
    (¬ ((commitScenState.heap 1).subtreeFlags &&& MutationMask ≠ NoFlags ∨
       (commitScenState.heap 1).flags &&& MutationMask ≠ NoFlags) →
      (commitRoot structuralHandlers commitScenState).heap = commitScenState.heap ∧
      (commitRoot structuralHandlers commitScenState).trace =
        commitScenState.trace ++ [Ev.commit 1]) :=
  commitRoot_mutation_and_swap structuralHandlers commitScenState 1 rfl

/-- C7: the commit handoff is single-use: with finishedWork unset commitRoot
changes nothing at all, and with it set it is cleared by the commit, so an
immediate second commitRoot call is a no-op. -/
theorem commitRoot_single_use (H : ExtHandlers) (s : EngineState) :
    (s.root.finishedWork = none → commitRoot H s = s) ∧
    (∀ fw, s.root.finishedWork = some fw →
      (commitRoot H s).root.finishedWork = none ∧
      commitRoot H (commitRoot H s) = commitRoot H s) := by
  constructor
  · intro h
    unfold commitRoot
    rw [h]
  · intro fw h
    have h1 : (commitRoot H s).root.finishedWork = none := by
      by_cases hc : (s.heap fw).subtreeFlags &&& MutationMask ≠ NoFlags ∨
          (s.heap fw).flags &&& MutationMask ≠ NoFlags
      · simp [commitRoot, h, hc]
      · simp [commitRoot, h, hc]
    refine ⟨h1, ?_⟩
    generalize ht : commitRoot H s = t at h1
    unfold commitRoot
    rw [h1]

/-- C7 witnessed: with finishedWork unset, commitRoot is the identity. -/
theorem commitRoot_single_use_witness :
    commitRoot structuralHandlers (mkState singleRootHeap 0 NoLane none 1) =
      mkState singleRootHeap 0 NoLane none 1 :=
  (commitRoot_single_use structuralHandlers (mkState singleRootHeap 0 NoLane none 1)).1 rfl

/-- C9 counterexample: two scheduleUpdateOnFiber(root, SyncLane) calls in
one turn enqueue two callbacks (as the claim says), but flushing does not
produce exactly one commit, and SyncLane is still pending afterwards: the
claimed coalescing to a single render does not happen. -/
theorem two_sync_updates_single_commit_refuted :
    twoUpdatesQueued.map EngineState.syncQueue = some [SyncLane, SyncLane] ∧
    twoUpdatesFlushed.map (fun s => countCommits s.trace) ≠ some 1 ∧
    twoUpdatesFlushed.map (fun s => s.root.pendingLanes) ≠ some NoLane := by decide

/-- C9 amended: the two queued callbacks each find SyncLane still the
highest pending lane (nothing in this engine clears pendingLanes), so both
run a full render and commit: the trace shows two begin/complete/commit
rounds, pendingLanes still holds SyncLane, and root.current has been swapped
twice, back to fiber 0. -/
theorem two_sync_updates_two_commits :
    twoUpdatesQueued.map EngineState.syncQueue = some [SyncLane, SyncLane] ∧
    twoUpdatesFlushed.map
        (fun s => (countCommits s.trace, s.root.pendingLanes, s.root.current, s.trace)) =
      some (2, SyncLane, 0,
        [Ev.begin 1, Ev.complete 1, Ev.commit 1,
         Ev.begin 0, Ev.complete 0, Ev.commit 0]) := by decide

/-- C10: every performSyncWorkOnRoot call that returns (started with the
module cursor idle, as between renders) returns with the cursor none, on the
stale-lane abort path, on normal exhaustion of the walk, and on the
handler-exception path where the catch resets it. -/
theorem performSyncWorkOnRoot_idle_cursor (H : ExtHandlers) (fuel : Nat)
    (s : EngineState) (lane : Nat) (t : EngineState) (hidle : s.wip = none)
    (hret : performSyncWorkOnRoot H fuel s lane = some t) : t.wip = none := by
  unfold performSyncWorkOnRoot at hret
  by_cases hg : getHighestPriorityLane s.root.pendingLanes ≠ SyncLane
  · rw [if_pos hg] at hret
    injection hret with h2
    rw [← h2, (ensureRootIsScheduled_frame s).1]
    exact hidle
  · rw [if_neg hg] at hret
    cases hr : renderShell H fuel (prepareFreshStack s) with
    | none => rw [hr] at hret; cases hret
    | some s₂ =>
      rw [hr] at hret
      dsimp only at hret
      injection hret with h2
      have h3 := renderShell_some_wip_none H fuel (prepareFreshStack s) s₂ hr
      rw [← h2, commitRoot_wip]
      exact h3

/-- C10 witnessed on a full successful render from an idle cursor. -/
theorem performSyncWorkOnRoot_idle_cursor_witness :
    (performSyncWorkOnRoot structuralHandlers 20
        (mkState singleRootHeap 0 SyncLane none 1) SyncLane).map EngineState.wip =
      some none := by
  cases hr : performSyncWorkOnRoot structuralHandlers 20
      (mkState singleRootHeap 0 SyncLane none 1) SyncLane with
  | none =>
    have hs : (performSyncWorkOnRoot structuralHandlers 20
        (mkState singleRootHeap 0 SyncLane none 1) SyncLane).isSome = true := by decide
    rw [hr] at hs
    simp at hs
  | some t =>
    have h := performSyncWorkOnRoot_idle_cursor structuralHandlers 20
      (mkState singleRootHeap 0 SyncLane none 1) SyncLane t rfl hr
    simp [h]
